import Mathlib

/-!
Verification of the fineplay-apply service (`src/main.py`): a single HTTP
endpoint that validates a match application, builds a two-table CSV export
and emails it through the SendGrid API.  The Python source is shallowly
embedded below: every function of the pipeline becomes an executable Lean
definition, environment lookups and the provider's HTTP response become
explicit parameters, and the side effects (invocations of
`sendgrid_send_email`, outgoing HTTP requests, the built export artifact)
are returned as an explicit trace.
-/

namespace Fineplay

/-- `class Player(BaseModel)` of `main.py`: name, position, number, all strings. -/
structure Player where
  name : String
  position : String
  number : String
deriving Repr, DecidableEq

/-- `class Application(BaseModel)` of `main.py`.  Optional fields default to
the empty string at validation time, so here they are plain strings. -/
structure Application where
  plan : String
  match_date : String
  kickoff_time : String
  location : String
  home_team : String
  away_team : String
  representative_name : String
  representative_contact : String
  video_url_1 : String
  video_url_2 : String
  formation : String
  players : List Player
  substitutes : List Player
deriving Repr, DecidableEq

/-- The environment variables read by `main.py` (`os.environ.get`); `none`
models an unset variable. -/
structure Env where
  SENDGRID_API_KEY : Option String
  SENDGRID_FROM_EMAIL : Option String
  OPS_EMAIL : Option String
deriving Repr, DecidableEq

/-- An attachment dict as built by the handler and consumed by
`sendgrid_send_email`: keys `filename`, `data` (raw bytes, modelled as the
list of byte values) and `type`.  The `filename` and `type` keys are read
with `att.get(..., default)`, hence `Option`. -/
structure Attachment where
  filename : Option String
  data : List Nat
  type : Option String
deriving Repr, DecidableEq

/-- An entry of the `attachments` array of the SendGrid JSON payload, as
built in `sendgrid_send_email`. -/
structure SgAttachment where
  content : String
  type : String
  filename : String
  disposition : String
deriving Repr, DecidableEq

/-- The outgoing `requests.post` call of `sendgrid_send_email`: URL, bearer
token, the JSON payload fields and the timeout. -/
structure SendgridRequest where
  url : String
  bearer : String
  to_email : String
  from_email : String
  subject : String
  content : String
  attachments : List SgAttachment
  timeout : Nat
deriving Repr, DecidableEq

/-- The response of the provider to the HTTP call (`r.status_code`, `r.text`). -/
structure ProviderResponse where
  status_code : Nat
  text : String
deriving Repr, DecidableEq

/-- Alphabet of standard base64 (`base64.b64encode`). -/
def base64Alphabet : List Char :=
  "ABCDEFGHIJKLMNOPQRSTUVWXYZabcdefghijklmnopqrstuvwxyz0123456789+/".toList

/-- The base64 digit for a 6-bit value. -/
def b64digit (n : Nat) : Char := base64Alphabet.getD n 'A'

/-- `base64.b64encode` on a byte list, producing the padded base64 string. -/
def b64encode : List Nat → String
  | [] => ""
  | [a] =>
      String.mk [b64digit (a / 4), b64digit (a % 4 * 16)] ++ "=="
  | [a, b] =>
      String.mk [b64digit (a / 4), b64digit (a % 4 * 16 + b / 16),
        b64digit (b % 16 * 4)] ++ "="
  | a :: b :: c :: rest =>
      String.mk [b64digit (a / 4), b64digit (a % 4 * 16 + b / 16),
        b64digit (b % 16 * 4 + c / 64), b64digit (c % 64)] ++ b64encode rest

/-- Result of one invocation of `sendgrid_send_email`: the HTTP call that was
made, if any (`none` when the function raised before reaching
`requests.post`), and either the raised `RuntimeError` message or success. -/
structure SendOutcome where
  httpCall : Option SendgridRequest
  result : Except String Unit
deriving Repr

/-- Python truthiness of `os.environ.get(...)` on a string variable: falsy
iff unset or the empty string (`if not api_key`). -/
def envFalsy : Option String → Bool
  | none => true
  | some s => s = ""

/-- `sendgrid_send_email(to_email, subject, content, attachments)` of
`main.py`.  The environment and the provider's response to the (single
possible) HTTP call are explicit parameters. -/
def sendgrid_send_email (env : Env) (to_email subject content : String)
    (attachments : List Attachment) (resp : ProviderResponse) : SendOutcome :=
  let api_key := env.SENDGRID_API_KEY
  let from_email := env.SENDGRID_FROM_EMAIL.getD "no-reply@fineplay.kr"
  if envFalsy api_key then
    { httpCall := none, result := .error "SENDGRID_API_KEY is not set" }
  else
    let sg_attachments := attachments.map (fun att =>
      { content := b64encode att.data
        type := att.type.getD "application/octet-stream"
        filename := att.filename.getD "attachment"
        disposition := "attachment" : SgAttachment })
    let req : SendgridRequest :=
      { url := "https://api.sendgrid.com/v3/mail/send"
        bearer := api_key.getD ""
        to_email := to_email
        from_email := from_email
        subject := subject
        content := content
        attachments := sg_attachments
        timeout := 20 }
    if resp.status_code = 200 ∨ resp.status_code = 202 then
      { httpCall := some req, result := .ok () }
    else
      { httpCall := some req
        result := .error ("SendGrid error: " ++ toString resp.status_code
          ++ " " ++ resp.text) }

/-- The single row of the summary table (`summary_df`), with the columns in
source order. -/
structure SummaryRow where
  created_at_utc : String
  plan : String
  match_date : String
  kickoff_time : String
  location : String
  home_team : String
  away_team : String
  representative_name : String
  representative_contact : String
  video_url_1 : String
  video_url_2 : String
  formation : String
  players_count : Nat
  substitutes_count : Nat
  total_count : Nat
deriving Repr, DecidableEq

/-- One row of the roster table (`player_rows`): columns `type`, `name`,
`position`, `number`. -/
structure RosterRow where
  type : String
  name : String
  position : String
  number : String
deriving Repr, DecidableEq

/-- `total_players = len(data.players) + len(data.substitutes)`. -/
def total_players (data : Application) : Nat :=
  data.players.length + data.substitutes.length

/-- `(data.home_team or "HOME").replace("/", "_")`: the empty string is the
only falsy `str`, and a Python `str.replace` with a one-character needle
replaces every occurrence, i.e. maps characters. -/
def safe_home (home_team : String) : String :=
  String.mk ((if home_team = "" then "HOME" else home_team).data.map
    (fun c => if c = '/' then '_' else c))

/-- `summary_filename` of the handler. -/
def summary_filename (ts : String) (data : Application) : String :=
  "fineplay_application_summary_" ++ safe_home data.home_team ++ "_" ++ ts ++ ".csv"

/-- `players_filename` of the handler. -/
def players_filename (ts : String) (data : Application) : String :=
  "fineplay_application_players_" ++ safe_home data.home_team ++ "_" ++ ts ++ ".csv"

/-- `summary_df`: the one-row summary table built by the handler. -/
def summary_rows (ts : String) (data : Application) : List SummaryRow :=
  [{ created_at_utc := ts
     plan := data.plan
     match_date := data.match_date
     kickoff_time := data.kickoff_time
     location := data.location
     home_team := data.home_team
     away_team := data.away_team
     representative_name := data.representative_name
     representative_contact := data.representative_contact
     video_url_1 := data.video_url_1
     video_url_2 := data.video_url_2
     formation := data.formation
     players_count := data.players.length
     substitutes_count := data.substitutes.length
     total_count := total_players data }]

/-- `player_rows`: the roster table, starters then substitutes, each loop
preserving submission order. -/
def player_rows (data : Application) : List RosterRow :=
  data.players.map (fun p =>
    { type := "starter", name := p.name, position := p.position, number := p.number })
  ++ data.substitutes.map (fun p =>
    { type := "sub", name := p.name, position := p.position, number := p.number })

/-- CSV field rendering with pandas' minimal quoting: a field containing a
comma, quote, CR or LF is wrapped in double quotes with inner quotes doubled. -/
def csvField (s : String) : String :=
  if s.data.any (fun c => c = ',' ∨ c = '"' ∨ c = '\n' ∨ c = '\r') then
    "\"" ++ String.mk (s.data.flatMap (fun c =>
      if c = '"' then ['"', '"'] else [c])) ++ "\""
  else s

/-- A CSV line from a list of fields, newline-terminated. -/
def csvLine (fields : List String) : String :=
  String.intercalate "," (fields.map csvField) ++ "\n"

/-- `summary_df.to_csv(index=False)`: header then the rows. -/
def summary_to_csv (rows : List SummaryRow) : String :=
  csvLine ["created_at_utc", "plan", "match_date", "kickoff_time", "location",
    "home_team", "away_team", "representative_name", "representative_contact",
    "video_url_1", "video_url_2", "formation", "players_count",
    "substitutes_count", "total_count"]
  ++ String.join (rows.map (fun r =>
    csvLine [r.created_at_utc, r.plan, r.match_date, r.kickoff_time,
      r.location, r.home_team, r.away_team, r.representative_name,
      r.representative_contact, r.video_url_1, r.video_url_2, r.formation,
      toString r.players_count, toString r.substitutes_count,
      toString r.total_count]))

/-- `players_df.to_csv(index=False)`: header then the roster rows. -/
def players_to_csv (rows : List RosterRow) : String :=
  csvLine ["type", "name", "position", "number"]
  ++ String.join (rows.map (fun r =>
    csvLine [r.type, r.name, r.position, r.number]))

/-- `.encode("utf-8-sig")`: the UTF-8 byte-order mark followed by the UTF-8
bytes of the string. -/
def encodeUtf8Sig (s : String) : List Nat :=
  [0xEF, 0xBB, 0xBF] ++ s.toUTF8.toList.map UInt8.toNat

/-- The `attachments` list handed to `sendgrid_send_email` by the handler:
summary CSV first, players CSV second, both `text/csv`. -/
def application_attachments (ts : String) (data : Application) : List Attachment :=
  [{ filename := some (summary_filename ts data)
     data := encodeUtf8Sig (summary_to_csv (summary_rows ts data))
     type := some "text/csv" },
   { filename := some (players_filename ts data)
     data := encodeUtf8Sig (players_to_csv (player_rows data))
     type := some "text/csv" }]

/-- The HTTP-level result of `submit_application`: an `HTTPException`
(status, detail), a propagated `RuntimeError` (surfacing as a 500), or the
success body `{"status": ..., "sent_to": ...}`. -/
inductive SubmitResponse where
  | httpError (status : Nat) (detail : String)
  | runtimeError (msg : String)
  | ok (status : String) (sent_to : String)
deriving Repr, DecidableEq

/-- An invocation of `sendgrid_send_email` with its arguments. -/
structure SendCall where
  to_email : String
  subject : String
  content : String
  attachments : List Attachment
deriving Repr, DecidableEq

/-- The export artifact built by the handler: the two filenames, the two
tables and the two CSV byte buffers. -/
structure Export where
  summaryFilename : String
  playersFilename : String
  summaryRows : List SummaryRow
  playerRows : List RosterRow
  summaryBytes : List Nat
  playersBytes : List Nat
deriving Repr, DecidableEq

/-- What one call of the `/submit-application` handler did: its response,
every invocation of `sendgrid_send_email`, every HTTP call made to the
provider, and the export artifact, if one was built. -/
structure SubmitOutcome where
  response : SubmitResponse
  sendgridCalls : List SendCall
  httpCalls : List SendgridRequest
  exportArtifact : Option Export
deriving Repr

/-- `submit_application(data)` of `main.py`.  The UTC timestamp string `ts`
(`datetime.now(timezone.utc).strftime(...)`), the environment and the
provider's response are explicit parameters. -/
def submit_application (env : Env) (ts : String) (data : Application)
    (resp : ProviderResponse) : SubmitOutcome :=
  if total_players data < 11 then
    { response := .httpError 400 "최소 11명(선발) 입력이 필요합니다."
      sendgridCalls := []
      httpCalls := []
      exportArtifact := none }
  else
    let to_email := env.OPS_EMAIL.getD "official@fineplay.kr"
    let attachments := application_attachments ts data
    let send := sendgrid_send_email env to_email
      "[Fine Play] 신규 분석 신청 접수"
      "신규 분석 신청이 접수되었습니다. 첨부된 CSV 파일을 확인해주세요."
      attachments resp
    { response := match send.result with
        | .error msg => .runtimeError msg
        | .ok _ => .ok "ok" to_email
      sendgridCalls := [{ to_email := to_email
                          subject := "[Fine Play] 신규 분석 신청 접수"
                          content := "신규 분석 신청이 접수되었습니다. 첨부된 CSV 파일을 확인해주세요."
                          attachments := attachments }]
      httpCalls := send.httpCall.toList
      exportArtifact := some
        { summaryFilename := summary_filename ts data
          playersFilename := players_filename ts data
          summaryRows := summary_rows ts data
          playerRows := player_rows data
          summaryBytes := encodeUtf8Sig (summary_to_csv (summary_rows ts data))
          playersBytes := encodeUtf8Sig (players_to_csv (player_rows data)) } }

/-! ### Sample data used by the witness theorems -/

/-- A sample player. -/
def samplePlayer : Player :=
  { name := "Kim", position := "GK", number := "1" }

/-- A sample application with `n` starters and `m` substitutes. -/
def sampleApplication (n m : Nat) : Application :=
  { plan := "basic"
    match_date := "2024-01-01"
    kickoff_time := "10:00"
    location := "Seoul"
    home_team := "Team/A"
    away_team := "Team B"
    representative_name := "Rep"
    representative_contact := "010-0000-0000"
    video_url_1 := "https://v.example/1"
    video_url_2 := ""
    formation := "4-4-2"
    players := List.replicate n samplePlayer
    substitutes := List.replicate m samplePlayer }

/-- A fully configured environment. -/
def sampleEnv : Env :=
  { SENDGRID_API_KEY := some "SG.key"
    SENDGRID_FROM_EMAIL := none
    OPS_EMAIL := some "ops@fineplay.kr" }

/-- An environment with no variable set. -/
def emptyEnv : Env :=
  { SENDGRID_API_KEY := none, SENDGRID_FROM_EMAIL := none, OPS_EMAIL := none }

/-- A provider response accepting the mail. -/
def respAccepted : ProviderResponse := { status_code := 202, text := "" }

/-- A provider response rejecting the mail. -/
def respRejected : ProviderResponse := { status_code := 500, text := "boom" }

/-! ### Claims -/

/-- C1: for every Application whose players list length plus substitutes
list length is less than 11, the handler returns status 400, the
Notification Sender (`sendgrid_send_email`) is never invoked, no export
artifact is built and no email attempt (HTTP call) is made. -/
theorem submit_small_roster_rejected (env : Env) (ts : String)
    (data : Application) (resp : ProviderResponse)
    (h : data.players.length + data.substitutes.length < 11) :
    (submit_application env ts data resp).response
        = .httpError 400 "최소 11명(선발) 입력이 필요합니다."
    ∧ (submit_application env ts data resp).sendgridCalls = []
    ∧ (submit_application env ts data resp).httpCalls = []
    ∧ (submit_application env ts data resp).exportArtifact = none := by
  have h' : total_players data < 11 := h
  simp [submit_application, h']

/-- Witness for C1 at 5 starters and 3 substitutes. -/
theorem submit_small_roster_rejected_witness :
    (sampleApplication 5 3).players.length
        + (sampleApplication 5 3).substitutes.length < 11
    ∧ ((submit_application sampleEnv "20240101_000000" (sampleApplication 5 3)
          respAccepted).response
        = .httpError 400 "최소 11명(선발) 입력이 필요합니다."
    ∧ (submit_application sampleEnv "20240101_000000" (sampleApplication 5 3)
          respAccepted).sendgridCalls = []
    ∧ (submit_application sampleEnv "20240101_000000" (sampleApplication 5 3)
          respAccepted).httpCalls = []
    ∧ (submit_application sampleEnv "20240101_000000" (sampleApplication 5 3)
          respAccepted).exportArtifact = none) :=
  ⟨by decide,
   submit_small_roster_rejected sampleEnv "20240101_000000"
     (sampleApplication 5 3) respAccepted (by decide)⟩

/-- C4: if `SENDGRID_API_KEY` is absent from the environment,
`sendgrid_send_email` raises the configuration failure before any HTTP call
to the provider is attempted. -/
theorem sendgrid_missing_key_no_call (env : Env)
    (to_email subject content : String) (attachments : List Attachment)
    (resp : ProviderResponse) (h : env.SENDGRID_API_KEY = none) :
    (sendgrid_send_email env to_email subject content attachments resp).result
        = .error "SENDGRID_API_KEY is not set"
    ∧ (sendgrid_send_email env to_email subject content attachments
        resp).httpCall = none := by
  simp [sendgrid_send_email, envFalsy, h]

/-- Witness for C4 with the empty environment. -/
theorem sendgrid_missing_key_no_call_witness :
    emptyEnv.SENDGRID_API_KEY = none
    ∧ ((sendgrid_send_email emptyEnv "a@b.c" "s" "c" [] respAccepted).result
        = .error "SENDGRID_API_KEY is not set"
    ∧ (sendgrid_send_email emptyEnv "a@b.c" "s" "c" [] respAccepted).httpCall
        = none) :=
  ⟨rfl, sendgrid_missing_key_no_call emptyEnv "a@b.c" "s" "c" [] respAccepted rfl⟩

/-- C5: with the API key configured, a provider response whose status code
is neither 200 nor 202 makes `sendgrid_send_email` raise the delivery error
carrying the status code and the response body, while a response with
status 200 or 202 returns without error. -/
theorem sendgrid_status_code_handling (env : Env)
    (to_email subject content : String) (attachments : List Attachment)
    (resp : ProviderResponse) (k : String)
    (hk : env.SENDGRID_API_KEY = some k) (hk' : k ≠ "") :
    (resp.status_code ≠ 200 → resp.status_code ≠ 202 →
      (sendgrid_send_email env to_email subject content attachments
          resp).result
        = .error ("SendGrid error: " ++ toString resp.status_code ++ " "
            ++ resp.text))
    ∧ (resp.status_code = 200 ∨ resp.status_code = 202 →
      (sendgrid_send_email env to_email subject content attachments
          resp).result = .ok ()) := by
  constructor
  · intro h200 h202
    simp [sendgrid_send_email, envFalsy, hk, hk', h200, h202]
  · intro hst
    simp [sendgrid_send_email, envFalsy, hk, hk', hst]

/-- Witness for C5 applied at status 500 and status 202. -/
theorem sendgrid_status_code_handling_witness :
    sampleEnv.SENDGRID_API_KEY = some "SG.key" ∧ "SG.key" ≠ ""
    ∧ (sendgrid_send_email sampleEnv "a@b.c" "s" "c" [] respRejected).result
        = .error ("SendGrid error: " ++ toString respRejected.status_code
            ++ " " ++ respRejected.text)
    ∧ (sendgrid_send_email sampleEnv "a@b.c" "s" "c" [] respAccepted).result
        = .ok () :=
  ⟨rfl, by decide,
   (sendgrid_status_code_handling sampleEnv "a@b.c" "s" "c" [] respRejected
      "SG.key" rfl (by decide)).1 (by decide) (by decide),
   (sendgrid_status_code_handling sampleEnv "a@b.c" "s" "c" [] respAccepted
      "SG.key" rfl (by decide)).2 (Or.inr rfl)⟩

/-- C2: for every Application with at least 11 players in total, the roster
table built by `submit_application` is `player_rows data`; it has exactly
`total` rows, the first `len(players)` rows are the starters in submission
order with type `"starter"`, followed by the substitutes in submission
order with type `"sub"`. -/
theorem submit_roster_table (env : Env) (ts : String) (data : Application)
    (resp : ProviderResponse)
    (h : 11 ≤ data.players.length + data.substitutes.length) :
    (submit_application env ts data resp).exportArtifact.map Export.playerRows
        = some (player_rows data)
    ∧ (player_rows data).length
        = data.players.length + data.substitutes.length
    ∧ (player_rows data).take data.players.length
        = data.players.map (fun p =>
            { type := "starter", name := p.name, position := p.position,
              number := p.number })
    ∧ (player_rows data).drop data.players.length
        = data.substitutes.map (fun p =>
            { type := "sub", name := p.name, position := p.position,
              number := p.number }) := by
  have h' : ¬ total_players data < 11 := by
    simp only [total_players]; omega
  refine ⟨?_, ?_, ?_, ?_⟩
  · simp [submit_application, h']
  · simp [player_rows]
  · unfold player_rows
    exact List.take_left' (by simp)
  · unfold player_rows
    exact List.drop_left' (by simp)

/-- Witness for C2 at 7 starters and 4 substitutes. -/
theorem submit_roster_table_witness :
    11 ≤ (sampleApplication 7 4).players.length
        + (sampleApplication 7 4).substitutes.length
    ∧ ((submit_application sampleEnv "ts" (sampleApplication 7 4)
          respAccepted).exportArtifact.map Export.playerRows
        = some (player_rows (sampleApplication 7 4))
    ∧ (player_rows (sampleApplication 7 4)).length
        = (sampleApplication 7 4).players.length
            + (sampleApplication 7 4).substitutes.length
    ∧ (player_rows (sampleApplication 7 4)).take
          (sampleApplication 7 4).players.length
        = (sampleApplication 7 4).players.map (fun p =>
            { type := "starter", name := p.name, position := p.position,
              number := p.number })
    ∧ (player_rows (sampleApplication 7 4)).drop
          (sampleApplication 7 4).players.length
        = (sampleApplication 7 4).substitutes.map (fun p =>
            { type := "sub", name := p.name, position := p.position,
              number := p.number })) :=
  ⟨by decide,
   submit_roster_table sampleEnv "ts" (sampleApplication 7 4) respAccepted
     (by decide)⟩

/-- C3: for every Application that passes the roster-size gate, the summary
table has exactly one row, and in that row `total_count` equals
`players_count` plus `substitutes_count`. -/
theorem submit_summary_table (env : Env) (ts : String) (data : Application)
    (resp : ProviderResponse)
    (h : 11 ≤ data.players.length + data.substitutes.length) :
    (submit_application env ts data resp).exportArtifact.map Export.summaryRows
        = some (summary_rows ts data)
    ∧ (summary_rows ts data).length = 1
    ∧ ∀ r ∈ summary_rows ts data,
        r.total_count = r.players_count + r.substitutes_count := by
  have h' : ¬ total_players data < 11 := by
    simp only [total_players]; omega
  refine ⟨?_, ?_, ?_⟩
  · simp [submit_application, h']
  · simp [summary_rows]
  · intro r hr
    simp only [summary_rows, List.mem_singleton] at hr
    subst hr
    simp [total_players]

/-- Witness for C3 at 11 starters and no substitutes. -/
theorem submit_summary_table_witness :
    11 ≤ (sampleApplication 11 0).players.length
        + (sampleApplication 11 0).substitutes.length
    ∧ ((submit_application sampleEnv "ts" (sampleApplication 11 0)
          respAccepted).exportArtifact.map Export.summaryRows
        = some (summary_rows "ts" (sampleApplication 11 0))
    ∧ (summary_rows "ts" (sampleApplication 11 0)).length = 1
    ∧ ∀ r ∈ summary_rows "ts" (sampleApplication 11 0),
        r.total_count = r.players_count + r.substitutes_count) :=
  ⟨by decide,
   submit_summary_table sampleEnv "ts" (sampleApplication 11 0) respAccepted
     (by decide)⟩

/-- C7: for every Application that passes the gate, the attachment
filenames are `fineplay_application_summary_{sanitized}_{ts}.csv` and
`fineplay_application_players_{sanitized}_{ts}.csv`, where sanitization
replaces every `/` of `home_team` with `_` and substitutes `HOME` when
`home_team` is empty; in particular `"Team/A"` yields `"Team_A"`. -/
theorem submit_filenames (env : Env) (ts : String) (data : Application)
    (resp : ProviderResponse)
    (h : 11 ≤ data.players.length + data.substitutes.length) :
    (submit_application env ts data resp).exportArtifact.map
        Export.summaryFilename
        = some ("fineplay_application_summary_" ++ safe_home data.home_team
            ++ "_" ++ ts ++ ".csv")
    ∧ (submit_application env ts data resp).exportArtifact.map
        Export.playersFilename
        = some ("fineplay_application_players_" ++ safe_home data.home_team
            ++ "_" ++ ts ++ ".csv")
    ∧ safe_home "Team/A" = "Team_A"
    ∧ safe_home "" = "HOME"
    ∧ ∀ c ∈ (safe_home data.home_team).data, c ≠ '/' := by
  have h' : ¬ total_players data < 11 := by
    simp only [total_players]; omega
  refine ⟨?_, ?_, by decide, by decide, ?_⟩
  · simp [submit_application, h', summary_filename]
  · simp [submit_application, h', players_filename]
  · intro c hc
    simp only [safe_home, String.data] at hc
    obtain ⟨a, _, rfl⟩ := List.mem_map.mp hc
    by_cases ha : a = '/' <;> simp [ha]

/-- Witness for C7 at home team `"Team/A"`. -/
theorem submit_filenames_witness :
    11 ≤ (sampleApplication 6 5).players.length
        + (sampleApplication 6 5).substitutes.length
    ∧ ((submit_application sampleEnv "20240101_000000" (sampleApplication 6 5)
          respAccepted).exportArtifact.map Export.summaryFilename
        = some ("fineplay_application_summary_"
            ++ safe_home (sampleApplication 6 5).home_team
            ++ "_" ++ "20240101_000000" ++ ".csv")
    ∧ (submit_application sampleEnv "20240101_000000" (sampleApplication 6 5)
          respAccepted).exportArtifact.map Export.playersFilename
        = some ("fineplay_application_players_"
            ++ safe_home (sampleApplication 6 5).home_team
            ++ "_" ++ "20240101_000000" ++ ".csv")
    ∧ safe_home "Team/A" = "Team_A"
    ∧ safe_home "" = "HOME"
    ∧ ∀ c ∈ (safe_home (sampleApplication 6 5).home_team).data, c ≠ '/') :=
  ⟨by decide,
   submit_filenames sampleEnv "20240101_000000" (sampleApplication 6 5)
     respAccepted (by decide)⟩

/-- C6 counterexample: on a roster of 8 players the handler does return a
400 error, but its detail is the Korean message of the source, not the
English text "at least 11 starting players required" stated by the claim. -/
theorem submit_error_message_counterexample :
    (submit_application sampleEnv "ts" (sampleApplication 5 3)
        respAccepted).response
      ≠ .httpError 400 "at least 11 starting players required"
    ∧ (submit_application sampleEnv "ts" (sampleApplication 5 3)
        respAccepted).response
      = .httpError 400 "최소 11명(선발) 입력이 필요합니다." := by
  exact ⟨by decide, by decide⟩

/-- C6 amended: when the roster-size gate rejects a request, the 400 error
carries the fixed human-readable Korean message
"최소 11명(선발) 입력이 필요합니다." ("at least 11 (starting) players must be
entered"). -/
theorem submit_error_message (env : Env) (ts : String) (data : Application)
    (resp : ProviderResponse)
    (h : data.players.length + data.substitutes.length < 11) :
    (submit_application env ts data resp).response
      = .httpError 400 "최소 11명(선발) 입력이 필요합니다." := by
  have h' : total_players data < 11 := h
  simp [submit_application, h']

/-- Witness for the amended C6 at 5 starters and 3 substitutes. -/
theorem submit_error_message_witness :
    (sampleApplication 5 3).players.length
        + (sampleApplication 5 3).substitutes.length < 11
    ∧ (submit_application emptyEnv "ts" (sampleApplication 5 3)
        respRejected).response
      = .httpError 400 "최소 11명(선발) 입력이 필요합니다." :=
  ⟨by decide,
   submit_error_message emptyEnv "ts" (sampleApplication 5 3) respRejected
     (by decide)⟩

/-- C8: when the gate passes, the API key is configured and the provider
accepts the mail, the handler returns `{status: "ok", sent_to: r}` where
`r` is the value of `OPS_EMAIL`, or `"official@fineplay.kr"` when
`OPS_EMAIL` is unset. -/
theorem submit_success_response (env : Env) (ts : String)
    (data : Application) (resp : ProviderResponse) (k : String)
    (h : 11 ≤ data.players.length + data.substitutes.length)
    (hk : env.SENDGRID_API_KEY = some k) (hk' : k ≠ "")
    (hst : resp.status_code = 200 ∨ resp.status_code = 202) :
    (submit_application env ts data resp).response
      = .ok "ok" (match env.OPS_EMAIL with
          | some e => e
          | none => "official@fineplay.kr") := by
  have h' : ¬ total_players data < 11 := by
    simp only [total_players]; omega
  cases hOps : env.OPS_EMAIL <;>
    rcases hst with hs | hs <;>
      simp [submit_application, h', sendgrid_send_email, envFalsy, hk, hk',
        hs, hOps, Option.getD]

/-- Witness for C8 with `OPS_EMAIL` set to `ops@fineplay.kr`. -/
theorem submit_success_response_witness :
    11 ≤ (sampleApplication 10 1).players.length
        + (sampleApplication 10 1).substitutes.length
    ∧ sampleEnv.SENDGRID_API_KEY = some "SG.key" ∧ "SG.key" ≠ ""
    ∧ (respAccepted.status_code = 200 ∨ respAccepted.status_code = 202)
    ∧ (submit_application sampleEnv "ts" (sampleApplication 10 1)
        respAccepted).response = .ok "ok" "ops@fineplay.kr" :=
  ⟨by decide, rfl, by decide, Or.inr rfl,
   submit_success_response sampleEnv "ts" (sampleApplication 10 1)
     respAccepted "SG.key" (by decide) rfl (by decide) (Or.inr rfl)⟩

/-- A response built from a send result is never a 400 error. -/
theorem match_response_ne_httpError (t : String) (z : Except String Unit)
    (s : Nat) (d : String) :
    (match z with
      | .error msg => SubmitResponse.runtimeError msg
      | .ok _ => SubmitResponse.ok "ok" t) ≠ .httpError s d := by
  cases z <;> simp

/-- C9: the gate counts starters and substitutes together: an Application
with zero players and at least 11 substitutes passes the gate and is
processed (the export is built, `sendgrid_send_email` is invoked once, and
no 400 rejection is returned). -/
theorem submit_gate_counts_substitutes (env : Env) (ts : String)
    (data : Application) (resp : ProviderResponse)
    (h0 : data.players = []) (h11 : 11 ≤ data.substitutes.length) :
    (submit_application env ts data resp).exportArtifact.isSome = true
    ∧ (submit_application env ts data resp).sendgridCalls.length = 1
    ∧ ∀ d, (submit_application env ts data resp).response
        ≠ .httpError 400 d := by
  have h' : ¬ total_players data < 11 := by
    simp only [total_players, h0, List.length_nil]; omega
  refine ⟨?_, ?_, ?_⟩
  · simp [submit_application, h']
  · simp [submit_application, h']
  · intro d
    simp only [submit_application, if_neg h']
    exact match_response_ne_httpError _ _ _ _

/-- Witness for C9 at zero starters and 11 substitutes. -/
theorem submit_gate_counts_substitutes_witness :
    (sampleApplication 0 11).players = []
    ∧ 11 ≤ (sampleApplication 0 11).substitutes.length
    ∧ ((submit_application emptyEnv "ts" (sampleApplication 0 11)
          respAccepted).exportArtifact.isSome = true
    ∧ (submit_application emptyEnv "ts" (sampleApplication 0 11)
          respAccepted).sendgridCalls.length = 1
    ∧ ∀ d, (submit_application emptyEnv "ts" (sampleApplication 0 11)
          respAccepted).response ≠ .httpError 400 d) :=
  ⟨rfl, by decide,
   submit_gate_counts_substitutes emptyEnv "ts" (sampleApplication 0 11)
     respAccepted rfl (by decide)⟩

/-- C10: on every successful submission exactly two attachments are passed
to `sendgrid_send_email` — the summary CSV first and the players CSV
second, both with MIME type `text/csv` — and the bytes of each attachment
are base64-encoded in the payload transmitted to the provider. -/
theorem submit_attachments (env : Env) (ts : String) (data : Application)
    (resp : ProviderResponse) (k : String)
    (h : 11 ≤ data.players.length + data.substitutes.length)
    (hk : env.SENDGRID_API_KEY = some k) (hk' : k ≠ "")
    (hst : resp.status_code = 200 ∨ resp.status_code = 202) :
    (submit_application env ts data resp).response
      = .ok "ok" (env.OPS_EMAIL.getD "official@fineplay.kr")
    ∧ (submit_application env ts data resp).sendgridCalls.map
        SendCall.attachments = [application_attachments ts data]
    ∧ (application_attachments ts data).length = 2
    ∧ (application_attachments ts data).map Attachment.filename
        = [some (summary_filename ts data), some (players_filename ts data)]
    ∧ (application_attachments ts data).map Attachment.type
        = [some "text/csv", some "text/csv"]
    ∧ (submit_application env ts data resp).httpCalls.map
        (fun r => r.attachments.map SgAttachment.content)
        = [(application_attachments ts data).map
            (fun a => b64encode a.data)] := by
  have h' : ¬ total_players data < 11 := by
    simp only [total_players]; omega
  refine ⟨?_, ?_, ?_, ?_, ?_, ?_⟩
  · rcases hst with hs | hs <;>
      simp [submit_application, h', sendgrid_send_email, envFalsy, hk, hk',
        hs]
  · simp [submit_application, h']
  · simp [application_attachments]
  · simp [application_attachments]
  · simp [application_attachments]
  · rcases hst with hs | hs <;>
      simp [submit_application, h', sendgrid_send_email, envFalsy, hk, hk',
        hs, application_attachments]

/-- Witness for C10 at 8 starters and 3 substitutes. -/
theorem submit_attachments_witness :
    11 ≤ (sampleApplication 8 3).players.length
        + (sampleApplication 8 3).substitutes.length
    ∧ sampleEnv.SENDGRID_API_KEY = some "SG.key" ∧ "SG.key" ≠ ""
    ∧ (respAccepted.status_code = 200 ∨ respAccepted.status_code = 202)
    ∧ ((submit_application sampleEnv "ts" (sampleApplication 8 3)
          respAccepted).response
        = .ok "ok" (sampleEnv.OPS_EMAIL.getD "official@fineplay.kr")
    ∧ (submit_application sampleEnv "ts" (sampleApplication 8 3)
          respAccepted).sendgridCalls.map SendCall.attachments
        = [application_attachments "ts" (sampleApplication 8 3)]
    ∧ (application_attachments "ts" (sampleApplication 8 3)).length = 2
    ∧ (application_attachments "ts" (sampleApplication 8 3)).map
          Attachment.filename
        = [some (summary_filename "ts" (sampleApplication 8 3)),
           some (players_filename "ts" (sampleApplication 8 3))]
    ∧ (application_attachments "ts" (sampleApplication 8 3)).map
          Attachment.type
        = [some "text/csv", some "text/csv"]
    ∧ (submit_application sampleEnv "ts" (sampleApplication 8 3)
          respAccepted).httpCalls.map
          (fun r => r.attachments.map SgAttachment.content)
        = [(application_attachments "ts" (sampleApplication 8 3)).map
            (fun a => b64encode a.data)]) :=
  ⟨by decide, rfl, by decide, Or.inr rfl,
   submit_attachments sampleEnv "ts" (sampleApplication 8 3) respAccepted
     "SG.key" (by decide) rfl (by decide) (Or.inr rfl)⟩

end Fineplay
